import Mathlib

/-!
Shallow embedding of the model-conversion utilities of the repository
(the convert-*-to-onnx scripts): the artifact locator, the downloader,
the checkpoint resolver, the export tail and the command-line entry
points, together with proofs of the specification claims about them.
-/

namespace SomeTools

/-! ## Fetcher (download_file in convert-deoldify-to-onnx.py,
convert-fbcnn-to-onnx.py, convert-scunet-to-onnx.py)

The HTTP interaction is modelled by the observable outcome of the
request: either urlopen raises an HTTPError with a status code, or it
raises some other (transport) exception before the body is opened, or
it yields a stream of body chunks which may end in a mid-stream
transport exception.  The filesystem is a map from path to file
contents (a list of bytes). -/

/-- Contents of the local filesystem: path to file bytes. -/
def FS : Type := String → Option (List Nat)

/-- Update the filesystem at one path. -/
def FS.set (fs : FS) (p : String) (contents : List Nat) : FS :=
  fun q => if q = p then some contents else fs q

/-- Observable outcome of the HTTP request made by download_file. -/
inductive Response where
  /-- urllib raises HTTPError with this status (before the output file is opened). -/
  | httpError (code : Nat)
  /-- urlopen raises a non-HTTP exception (network failure) before the body is read. -/
  | preTransportError
  /-- the body yields these chunks in order; if midError is true a transport
      exception is raised after the last chunk instead of a clean EOF. -/
  | stream (chunks : List (List Nat)) (midError : Bool)
  deriving Repr, DecidableEq

/-- Failure classification printed by the except branches of download_file. -/
inductive FetchFailure where
  | unauthorized
  | notFound
  | httpError (code : Nat)
  | transportError
  deriving Repr, DecidableEq

/-- Result of a download_file call: the function always returns (True on
success, False with a classified message on failure); it never propagates
an exception to its caller. -/
inductive FetchResult where
  | success
  | failure (kind : FetchFailure)
  deriving Repr, DecidableEq

/-- Boolean value actually returned to the Python caller. -/
def FetchResult.toBool : FetchResult → Bool
  | .success => true
  | .failure _ => false

/-- Classification of an HTTPError in the first except branch of
download_file: 401 is authentication required, 404 is file not found,
anything else is a generic HTTP error carrying the code. -/
def classifyHTTPError (code : Nat) : FetchFailure :=
  if code = 401 then .unauthorized
  else if code = 404 then .notFound
  else .httpError code

/-- Embedding of download_file: opens dest for writing only once a body
stream is available, writes the chunks one by one, and classifies every
exception in its two except branches, returning False instead of
re-raising.  Returns the result together with the filesystem after the
call. -/
def download_file (fs : FS) (dest : String) (resp : Response) :
    FetchResult × FS :=
  match resp with
  | .httpError code => (.failure (classifyHTTPError code), fs)
  | .preTransportError => (.failure .transportError, fs)
  | .stream chunks midError =>
    let fs1 := fs.set dest chunks.flatten
    if midError then (.failure .transportError, fs1)
    else (.success, fs1)

/-! ## Artifact locator (convert-fbcnn-to-onnx.py lines 121-177 and the
same pattern in the other scripts)

The script probes a fixed list of local candidate paths for existence in
order and stops at the first hit; if none exists it walks the download
sources in declared order, fetching each to the single default model
path, stopping at the first fetch that returns True; if every source
fails it prints manual-acquisition instructions and returns False. -/

/-- First local candidate path that exists, probing in order. -/
def probeLocals (fs : String → Bool) : List String → Option String
  | [] => none
  | p :: rest => if fs p then some p else probeLocals fs rest

/-- Try the remote sources in order; on the first fetch success return the
destination path; also record which urls were attempted. -/
def tryRemotes (fetch : String → Bool) (dest : String) :
    List String → Option String × List String
  | [] => (none, [])
  | url :: rest =>
    if fetch url then (some dest, [url])
    else
      let r := tryRemotes fetch dest rest
      (r.1, url :: r.2)

/-- Embedding of the model-location phase: local candidates first, then
remote sources, each fetched to the single default destination path.
Returns the located path (none is the NotFound outcome) and the list of
remote urls that were attempted. -/
def locate (fs : String → Bool) (fetch : String → Bool)
    (locals : List String) (urls : List String) (dest : String) :
    Option String × List String :=
  match probeLocals fs locals with
  | some p => (some p, [])
  | none => tryRemotes fetch dest urls

/-! ## Checkpoint resolver (convert-fbcnn-to-onnx.py lines 182-195,
convert-deoldify-to-onnx.py lines 262-398, convert-scunet-to-onnx.py
lines 184-206)

A deserialized checkpoint is a Python value: a tensor, a dict (with
insertion-ordered entries), a torch module, a fastai Learner wrapping a
module (the value returned by the deoldify generators, exposing the
module as its model attribute), or a scalar.  Python exceptions that the
scripts catch are modelled as the error side of Except. -/

/-- A torch nn.Module: identity of its weights plus its training flag. -/
structure NNModule where
  mid : Nat
  training : Bool
  deriving Repr, DecidableEq

/-- Result of calling eval() on a module: training mode switched off. -/
def NNModule.evalMode (m : NNModule) : NNModule :=
  ⟨m.mid, false⟩

/-- Python value shapes a deserialized checkpoint can take. -/
inductive PyValue where
  | tensor (id : Nat)
  | pydict (entries : List (String × PyValue))
  | mod (m : NNModule)
  | learner (m : NNModule)
  | pystr (s : String)
  | pyint (n : Int)
  | pynone

/-- Python "is None" test on a loaded value. -/
def PyValue.isNone : PyValue → Bool
  | .pynone => true
  | _ => false

/-- Exceptions raised inside the loading step and caught by the scripts
(all of them lead to a printed message and return False). -/
inductive PyErr where
  | attributeError
  | loadFailure
  deriving Repr, DecidableEq

/-- Ordered-association-list lookup, the semantics of Python dict
membership and indexing for our insertion-ordered entries. -/
def lookupKey : List (String × PyValue) → String → Option PyValue
  | [], _ => none
  | (k, v) :: rest, key => if k = key then some v else lookupKey rest key

/-- Python dict.get with a default.  Called on a non-dict value (for
instance a module loaded directly) it raises AttributeError, which the
scripts catch with their blanket except branch. -/
def pyGet (v : PyValue) (key : String) (dflt : PyValue) :
    Except PyErr PyValue :=
  match v with
  | .pydict es => .ok ((lookupKey es key).getD dflt)
  | _ => .error .attributeError

/-- Last segment of the fbcnn loading step (convert-fbcnn-to-onnx.py
lines 190-194): a dict result is rejected with a printed message and
return False; otherwise eval() is called, raising AttributeError inside
the blanket except branch on anything that is not a module. -/
def fbcnnFinish (model : PyValue) : Except PyErr NNModule :=
  match model with
  | .pydict _ => .error .loadFailure
  | .mod m => .ok m.evalMode
  | _ => .error .attributeError

/-- Embedding of the fbcnn loading step (convert-fbcnn-to-onnx.py lines
183-194): model is checkpoint.get of the conventional keys; on None the
file is loaded again (yielding the same checkpoint); then the dict check
and eval() of fbcnnFinish run. -/
def fbcnnResolveModel (checkpoint : PyValue) : Except PyErr NNModule := do
  let inner2 ← pyGet checkpoint "FBCNN" .pynone
  let inner1 ← pyGet checkpoint "net" inner2
  let got ← pyGet checkpoint "model" inner1
  fbcnnFinish (if got.isNone then checkpoint else got)

/-- Tensor-or-dict test used by the deoldify state-dict heuristic
(isinstance of torch.Tensor or dict). -/
def isTensorOrDict : PyValue → Bool
  | .tensor _ => true
  | .pydict _ => true
  | _ => false

/-- Embedding of the deoldify state-dict heuristic (line 284): all of
the first five values of the dict are tensors or nested dicts. -/
def looksLikeStateDict (es : List (String × PyValue)) : Bool :=
  ((es.map Prod.snd).take 5).all isTensorOrDict

/-- Embedding of the deoldify state-dict extraction (lines 277-286): the
generator key, then the state_dict key, then the whole dict when the
heuristic accepts it, else nothing. -/
def extractStateDict (es : List (String × PyValue)) : Option PyValue :=
  match lookupKey es "generator" with
  | some v => some v
  | none =>
    match lookupKey es "state_dict" with
    | some v => some v
    | none => if looksLikeStateDict es then some (.pydict es) else none

/-! ## DeOldify architecture choice (convert-deoldify-to-onnx.py lines
331-370) -/

/-- The two DeOldify generator constructors. -/
inductive GenArch where
  | deep
  | wide
  deriving Repr, DecidableEq

/-- Embedding of line 340: the model type actually used is hard-coded to
artistic, whatever variant was requested. -/
def actualModelType (_variant : String) : String :=
  "artistic"

/-- Embedding of lines 357-366: gen_inference_deep is used for every
variant. -/
def chosenGenerator (_variant : String) : GenArch :=
  .deep

/-- Weight file name the script copies the obtained weights to (line
341): derived from actualModelType, not from the requested variant. -/
def expectedWeightName (variant : String) : String :=
  "Colorize" ++ (actualModelType variant).capitalize ++ "_gen.pth"

/-! ## Non-strict state-dict loading (convert-deoldify-to-onnx.py line
369) -/

/-- Modelled semantics of the external collaborator
torch.nn.Module.load_state_dict over parameter-key sets: with strict
loading a key-set mismatch raises, with non-strict loading the missing
and unexpected keys are returned to the caller without raising. -/
def load_state_dict (targetKeys stateKeys : List String) (strict : Bool) :
    Except PyErr (List String × List String) :=
  let missing := targetKeys.filter (fun k => !(stateKeys.contains k))
  let unexpected := stateKeys.filter (fun k => !(targetKeys.contains k))
  if strict && (!missing.isEmpty || !unexpected.isEmpty) then
    .error .loadFailure
  else
    .ok (missing, unexpected)

/-- Embedding of the deoldify manual fallback load (lines 366-369): the
generator is built, then load_state_dict with strict False pours the
state dict into it; the learner is kept as the resolved value. -/
def deoldifyManualLoad (lrn : NNModule)
    (targetKeys stateKeys : List String) : Except PyErr NNModule := do
  let _report ← load_state_dict targetKeys stateKeys false
  .ok lrn

/-- Environment of external outcomes the deoldify resolution step
depends on: whether the DeOldify generator package can be imported,
what the first gen_inference_deep attempt yields (none is the exception
case), and what the fallback construction yields. -/
structure DeoldifyEnv where
  deoldifyAvailable : Bool
  attempt1 : Option NNModule
  attempt2 : Option NNModule
  deriving Repr, DecidableEq

/-- Embedding of the deoldify dict-checkpoint branch (lines 271-379):
extract a state dict, require the generator package, try
gen_inference_deep, fall back to building the generator and loading the
state dict non-strictly.  The parameter keys of the built generator and
of the state dict are passed in for the fallback load. -/
def deoldifyDictBranch (es : List (String × PyValue)) (env : DeoldifyEnv)
    (targetKeys stateKeys : List String) : Except PyErr PyValue :=
  match extractStateDict es with
  | none => .error .loadFailure
  | some _sd =>
    if !env.deoldifyAvailable then .error .loadFailure
    else
      match env.attempt1 with
      | some lrn => .ok (.learner lrn)
      | none =>
        match env.attempt2 with
        | none => .error .loadFailure
        | some lrn =>
          match deoldifyManualLoad lrn targetKeys stateKeys with
          | .ok lrn2 => .ok (.learner lrn2)
          | .error e => .error e

/-- Embedding of the deoldify finalization (lines 381-387): a value with
a model attribute (the Learner) is unwrapped, then eval() is called;
eval on anything that is not a module raises AttributeError into the
blanket handler. -/
def deoldifyFinalize (v : PyValue) : Except PyErr NNModule :=
  let inner :=
    match v with
    | .learner m => PyValue.mod m
    | x => x
  match inner with
  | .mod m => .ok m.evalMode
  | _ => .error .attributeError

/-- Dispatch on the shape of the loaded value (line 271): a dict goes
through the state-dict branch, anything else is kept as is. -/
def deoldifyResolveStep (model : PyValue) (env : DeoldifyEnv)
    (targetKeys stateKeys : List String) : Except PyErr PyValue :=
  match model with
  | .pydict es => deoldifyDictBranch es env targetKeys stateKeys
  | x => pure x

/-- Embedding of the full deoldify loading step (lines 262-398): the
conventional-key probe via dict.get (raising on a non-dict checkpoint),
reload on None, the dict branch, and finalization. -/
def deoldifyResolveModel (checkpoint : PyValue) (env : DeoldifyEnv)
    (targetKeys stateKeys : List String) : Except PyErr NNModule := do
  let inner2 ← pyGet checkpoint "generator" .pynone
  let inner1 ← pyGet checkpoint "net" inner2
  let got ← pyGet checkpoint "model" inner1
  let resolved ← deoldifyResolveStep (if got.isNone then checkpoint else got)
      env targetKeys stateKeys
  deoldifyFinalize resolved

/-- Embedding of the realesrgan load step (convert-realesrgan-to-onnx.py
lines 86-88): the module is taken from the upsampler and eval() is
called on it before export. -/
def realesrganPrepare (m : NNModule) : NNModule :=
  m.evalMode

/-! ## Export tail, verification and quantization
(convert-ai-detector-to-onnx.py lines 75-144,
convert-deoldify-to-onnx.py lines 400-461) -/

/-- Terminal outcome of one conversion run. -/
structure PipelineResult where
  success : Bool
  artifactPath : Option String
  warnings : List String
  deriving Repr, DecidableEq

/-- Embedding of the ai-detector export tail (lines 90-138): export,
then an optional quantization attempt whose failure is caught locally
and reported as a non-critical warning, then return True; an export
failure is caught by the outer handler and returns False. -/
def aiDetectorExportTail (onnxPath : String) (exportOk : Bool)
    (quantize quantOk : Bool) : PipelineResult :=
  if exportOk then
    { success := true
      artifactPath := some onnxPath
      warnings :=
        if quantize && !quantOk then ["Quantization failed (non-critical)"]
        else [] }
  else
    { success := false, artifactPath := none, warnings := [] }

/-- Embedding of the deoldify export tail (lines 406-452): export, then
a verification attempt whose failure is caught locally and reported as
a warning, then return True; an export failure is caught by the outer
handler and returns False. -/
def deoldifyExportTail (onnxPath : String) (exportOk : Bool)
    (verifyOk : Bool) : PipelineResult :=
  if exportOk then
    { success := true
      artifactPath := some onnxPath
      warnings := if !verifyOk then ["Verification warning"] else [] }
  else
    { success := false, artifactPath := none, warnings := [] }

/-- Embedding of main (convert-deoldify-to-onnx.py lines 463-500,
convert-fbcnn-to-onnx.py lines 268-303): dependency check failure exits
1 before the run; then sys.exit(0) when the conversion returned True,
sys.exit(1) otherwise. -/
def mainExit (depsOk : Bool) (convertResult : Bool) : Nat :=
  if !depsOk then 1
  else if convertResult then 0
  else 1

/-! ## Proofs about the locator and the fetcher -/

theorem probeLocals_eq_find (fs : String → Bool) (locals : List String) :
    probeLocals fs locals = locals.find? fs := by
  induction locals with
  | nil => rfl
  | cons p rest ih =>
    by_cases h : fs p = true
    · simp [probeLocals, h]
    · simp [probeLocals, h, ih]

theorem tryRemotes_eq_spec (fetch : String → Bool) (dest : String)
    (urls : List String) :
    tryRemotes fetch dest urls =
      match urls.find? fetch with
      | some u => (some dest, urls.takeWhile (fun x => !fetch x) ++ [u])
      | none => (none, urls) := by
  induction urls with
  | nil => rfl
  | cons u rest ih =>
    by_cases h : fetch u = true
    · simp [tryRemotes, h, List.takeWhile_cons]
    · simp only [tryRemotes, h, if_false, ih]
      cases hf : rest.find? fetch with
      | none => simp [List.find?_cons_of_neg, h, hf]
      | some w => simp [List.find?_cons_of_neg, h, hf, List.takeWhile_cons]

/-- C1: locate probes each local candidate in order and returns the first
existing path with no remote attempted; only when no local candidate
exists does it try the remote urls in declared order, returning the
destination path written by the first successful fetch after attempting
exactly the urls up to and including it; when every candidate fails it
returns none (the NotFound outcome) having attempted every url; and the
empty candidate list yields none immediately with no attempt. -/
theorem locate_local_first_remote_order (fs fetch : String → Bool)
    (locals urls : List String) (dest : String) :
    (locate fs fetch locals urls dest =
      match locals.find? fs with
      | some p => (some p, [])
      | none =>
        match urls.find? fetch with
        | some u => (some dest, urls.takeWhile (fun x => !fetch x) ++ [u])
        | none => (none, urls))
    ∧ locate fs fetch [] [] dest = (none, []) := by
  constructor
  · unfold locate
    rw [probeLocals_eq_find, tryRemotes_eq_spec]
  · rfl

/-- C2: download_file classifies an HTTP 401 as authentication required,
an HTTP 404 as file not found, any other HTTP error status as an HTTP
error carrying the code, and every non-HTTP exception as a transport
error; in every case it returns a value (False to the Python caller)
rather than propagating the exception. -/
theorem download_file_classification (fs : FS) (dest : String) (code : Nat)
    (resp : Response) :
    (download_file fs dest (.httpError 401)).1 = .failure .unauthorized
    ∧ (download_file fs dest (.httpError 404)).1 = .failure .notFound
    ∧ (code ≠ 401 → code ≠ 404 →
        (download_file fs dest (.httpError code)).1 = .failure (.httpError code))
    ∧ (download_file fs dest .preTransportError).1 = .failure .transportError
    ∧ (∀ chunks,
        (download_file fs dest (.stream chunks true)).1 = .failure .transportError)
    ∧ ((download_file fs dest resp).1.toBool = false ↔
        ∃ k, (download_file fs dest resp).1 = .failure k) := by
  refine ⟨rfl, rfl, ?_, rfl, fun _ => rfl, ?_⟩
  · intro h1 h4
    simp [download_file, classifyHTTPError, h1, h4]
  · cases resp with
    | httpError c => simp [download_file, FetchResult.toBool]
    | preTransportError => simp [download_file, FetchResult.toBool]
    | stream chunks midError =>
      cases midError <;> simp [download_file, FetchResult.toBool]

theorem download_file_classification_witness :
    (download_file (fun _ => none) "m.pth" (.httpError 500)).1 =
      .failure (.httpError 500) :=
  (download_file_classification (fun _ => none) "m.pth" 500
      (.httpError 500)).2.2.1 (by decide) (by decide)

/-- C10: a fetch that fails mid-stream after a body chunk was written
leaves the partially written file at the destination path: download_file
returns a transport failure, the truncated bytes remain on the
filesystem, and a subsequent local-candidate probe of that path reports
a hit. -/
theorem download_file_truncated_file_remains :
    (download_file (fun _ => none) "m.pth" (.stream [[1, 2, 3]] true)).1 =
      .failure .transportError
    ∧ (download_file (fun _ => none) "m.pth" (.stream [[1, 2, 3]] true)).2
        "m.pth" = some [1, 2, 3]
    ∧ probeLocals
        (fun p =>
          ((download_file (fun _ => none) "m.pth"
            (.stream [[1, 2, 3]] true)).2 p).isSome)
        ["m.pth"] = some "m.pth"
    ∧ ([1, 2, 3] : List Nat) ≠ [] := by
  refine ⟨rfl, ?_, ?_, by decide⟩
  · simp [download_file, FS.set]
  · simp [probeLocals, download_file, FS.set]

/-! ## Proofs about the checkpoint resolver -/

/-- C3: a checkpoint that is directly a module is not used as-is: the
conventional-key probe checkpoint.get raises AttributeError on it, the
blanket except branch catches that, and resolution fails, in both the
fbcnn and the deoldify loading steps; a module stored under the
conventional model key of a dict, by contrast, resolves successfully. -/
theorem direct_module_checkpoint_rejected :
    fbcnnResolveModel (.mod ⟨7, true⟩) = .error .attributeError
    ∧ (∀ (env : DeoldifyEnv) (tks sks : List String),
        deoldifyResolveModel (.mod ⟨7, true⟩) env tks sks =
          .error .attributeError)
    ∧ fbcnnResolveModel (.pydict [("model", .mod ⟨7, true⟩)]) = .ok ⟨7, false⟩ :=
  ⟨rfl, fun _ _ _ => rfl, rfl⟩

/-- Concrete dict checkpoint with three tensor values and two non-tensor
values under non-conventional keys. -/
def sampleMixedDict : List (String × PyValue) :=
  [("a", .tensor 0), ("b", .tensor 1), ("c", .tensor 2),
   ("d", .pyint 7), ("e", .pyint 8)]

/-- C4 counterexample: a keyless container in which a strict majority
(three of the five sampled values) is tensor-like is NOT treated as a
raw weight-state mapping: the heuristic in the code demands that all
sampled values pass the test, so extraction yields nothing here. -/
theorem majority_heuristic_counterexample :
    lookupKey sampleMixedDict "generator" = none
    ∧ lookupKey sampleMixedDict "state_dict" = none
    ∧ ((sampleMixedDict.map Prod.snd).take 5).countP isTensorOrDict = 3
    ∧ ((sampleMixedDict.map Prod.snd).take 5).length = 5
    ∧ 2 * ((sampleMixedDict.map Prod.snd).take 5).countP isTensorOrDict >
        ((sampleMixedDict.map Prod.snd).take 5).length
    ∧ extractStateDict sampleMixedDict = none := by
  refine ⟨rfl, rfl, rfl, rfl, by decide, rfl⟩

/-- C4 amended: a key-value container in which the conventional-key
search finds nothing is treated as a raw weight-state mapping exactly
when all of its first five (sampled) values are tensor-like or nested
mappings; otherwise state extraction yields nothing and the dict branch
of resolution fails. -/
theorem state_dict_heuristic_all_sampled (es : List (String × PyValue))
    (hg : lookupKey es "generator" = none)
    (hs : lookupKey es "state_dict" = none) :
    (extractStateDict es = some (.pydict es) ↔
      ((es.map Prod.snd).take 5).all isTensorOrDict = true)
    ∧ (extractStateDict es = none →
        ∀ (env : DeoldifyEnv) (tks sks : List String),
          deoldifyDictBranch es env tks sks = .error .loadFailure) := by
  constructor
  · unfold extractStateDict
    rw [hg, hs]
    unfold looksLikeStateDict
    cases hb : ((es.map Prod.snd).take 5).all isTensorOrDict <;> simp [hb]
  · intro h env tks sks
    unfold deoldifyDictBranch
    rw [h]

theorem state_dict_heuristic_all_sampled_witness :
    extractStateDict [("w", PyValue.tensor 0)] =
      some (.pydict [("w", PyValue.tensor 0)]) :=
  ((state_dict_heuristic_all_sampled [("w", PyValue.tensor 0)] rfl rfl).1).mpr rfl

/-- C5: non-strict state-dict loading never raises for key-set
mismatches; the missing and unexpected keys are returned as the report;
the manual-load fallback therefore succeeds whatever the key sets are,
its outcome does not depend on the mismatch, and a run whose export
succeeds keeps success true. -/
theorem nonstrict_load_tolerates_mismatch
    (target state target2 state2 : List String) (lrn : NNModule)
    (onnxPath : String) (verifyOk : Bool) :
    load_state_dict target state false =
      .ok (target.filter (fun k => !(state.contains k)),
           state.filter (fun k => !(target.contains k)))
    ∧ deoldifyManualLoad lrn target state = .ok lrn
    ∧ deoldifyManualLoad lrn target state = deoldifyManualLoad lrn target2 state2
    ∧ (deoldifyExportTail onnxPath true verifyOk).success = true :=
  ⟨rfl, rfl, rfl, rfl⟩

/-! ## Proofs about the export tail, the exit code and the training flag -/

/-- C6: once the export step has succeeded, a quantization failure or a
verification failure leaves the run successful: the artifact is still
emitted and the failure appears only as a warning. -/
theorem quant_verify_failure_nonfatal (onnxPath : String)
    (quantize quantOk verifyOk : Bool) :
    (aiDetectorExportTail onnxPath true quantize quantOk).success = true
    ∧ (aiDetectorExportTail onnxPath true quantize quantOk).artifactPath =
        some onnxPath
    ∧ (deoldifyExportTail onnxPath true verifyOk).success = true
    ∧ (deoldifyExportTail onnxPath true verifyOk).artifactPath = some onnxPath
    ∧ (aiDetectorExportTail onnxPath true true false).warnings =
        ["Quantization failed (non-critical)"]
    ∧ (deoldifyExportTail onnxPath true false).warnings =
        ["Verification warning"] :=
  ⟨rfl, rfl, rfl, rfl, rfl, rfl⟩

theorem exceptBind_ok {ε α β : Type} {a : Except ε α} {f : α → Except ε β}
    {b : β} (h : a >>= f = .ok b) : ∃ x, a = .ok x ∧ f x = .ok b := by
  cases a with
  | error e => exact absurd h (by simp [Bind.bind, Except.bind])
  | ok x => exact ⟨x, rfl, h⟩

theorem deoldifyFinalize_training (v : PyValue) (m : NNModule)
    (h : deoldifyFinalize v = .ok m) : m.training = false := by
  cases v <;> simp [deoldifyFinalize, NNModule.evalMode] at h <;>
    simp [← h]

theorem fbcnnFinish_training (v : PyValue) (m : NNModule)
    (h : fbcnnFinish v = .ok m) : m.training = false := by
  cases v <;> simp [fbcnnFinish, NNModule.evalMode] at h <;>
    simp [← h]

/-- C7: every module returned by a successful resolution has had eval()
called on it: its training flag is off before it reaches the export
stage, in the deoldify, fbcnn and realesrgan paths alike. -/
theorem resolved_module_inference_mode (ckpt : PyValue) (env : DeoldifyEnv)
    (tks sks : List String) (m : NNModule) :
    (deoldifyResolveModel ckpt env tks sks = .ok m → m.training = false)
    ∧ (fbcnnResolveModel ckpt = .ok m → m.training = false)
    ∧ (∀ m0 : NNModule, (realesrganPrepare m0).training = false) := by
  refine ⟨?_, ?_, fun m0 => rfl⟩
  · intro h
    unfold deoldifyResolveModel at h
    obtain ⟨x2, _, h⟩ := exceptBind_ok h
    obtain ⟨x1, _, h⟩ := exceptBind_ok h
    obtain ⟨g, _, h⟩ := exceptBind_ok h
    obtain ⟨v, _, hfin⟩ := exceptBind_ok h
    exact deoldifyFinalize_training v m hfin
  · intro h
    unfold fbcnnResolveModel at h
    obtain ⟨x2, _, h⟩ := exceptBind_ok h
    obtain ⟨x1, _, h⟩ := exceptBind_ok h
    obtain ⟨g, _, h⟩ := exceptBind_ok h
    exact fbcnnFinish_training _ m h

theorem resolved_module_inference_mode_witness :
    (⟨3, false⟩ : NNModule).training = false :=
  (resolved_module_inference_mode (.pydict [("model", .mod ⟨3, true⟩)])
      ⟨true, none, none⟩ [] [] ⟨3, false⟩).1 rfl

/-- C8: the process exit code is 0 exactly when the conversion returned
True (the Done outcome, including runs that finished with quantization
or verification warnings), and 1 when it returned False or the
dependency check failed before the run. -/
theorem exit_code_zero_iff_done (r : Bool) (onnxPath : String)
    (quantize quantOk verifyOk : Bool) :
    mainExit true true = 0
    ∧ mainExit true false = 1
    ∧ mainExit false r = 1
    ∧ (mainExit true r = 0 ↔ r = true)
    ∧ mainExit true (aiDetectorExportTail onnxPath true quantize quantOk).success = 0
    ∧ mainExit true (deoldifyExportTail onnxPath true verifyOk).success = 0 := by
  cases r <;> simp [mainExit, aiDetectorExportTail, deoldifyExportTail]

theorem exit_code_zero_iff_done_witness :
    mainExit true true = 0 ∧ mainExit true false = 1 :=
  ⟨(exit_code_zero_iff_done true "p" true true true).1,
   (exit_code_zero_iff_done true "p" true true true).2.1⟩

/-- C9: the code hard-codes the artistic checkpoint interpretation: the
model type actually used is artistic and the deep generator is chosen
for every requested variant, the weights are copied to the artistic
weight-file name, and resolution of a state-dict checkpoint proceeds
without any variant-mismatch rejection. -/
theorem variant_architecture_hardcoded (v1 v2 : String) :
    actualModelType "stable" = "artistic"
    ∧ actualModelType "backbone-lite" = "artistic"
    ∧ chosenGenerator "stable" = GenArch.deep
    ∧ chosenGenerator "backbone-lite" = GenArch.deep
    ∧ expectedWeightName "stable" = "ColorizeArtistic_gen.pth"
    ∧ actualModelType v1 = actualModelType v2
    ∧ deoldifyDictBranch [("state_dict", .pydict [])]
        ⟨true, some ⟨5, true⟩, none⟩ [] [] = .ok (.learner ⟨5, true⟩) :=
  ⟨rfl, rfl, rfl, rfl, rfl, rfl, rfl⟩

end SomeTools
